import Mathlib

/-!
Verification of the purchase-gated prediction retrieval flow and the
schedule client of the avax-nfl-predictor frontend
(`frontend/src/App.jsx`), shallowly embedded in Lean.

The embedding mirrors the JavaScript source:
* `fetchGames` / `processSchedule` embed the schedule fetch handler
  (App.jsx lines 176-219): filtering entries with falsy team fields and
  sorting with `Array.prototype.sort` under the comparator
  `(a, b) => new Date(a.date + " " + a.time) - new Date(b.date + " " + b.time)`.
  Per the ECMAScript SortCompare specification a comparator result of NaN
  (which arises whenever either date is unparsable) is treated as +0, and
  the sort is a stable merge sort; we model it with `List.mergeSort` over
  the boolean relation "comparator result <= 0".  JS `Date` parsing is
  abstracted as an oracle `parse : String -> Option Int` giving the
  chronological point in time, `none` for an unparsable string (NaN).
* `handleGetPrediction` / `runFlow` / `fetchPhase` embed the purchase-gated
  flow (App.jsx lines 222-321).  External collaborators (the wagmi
  contract reads, `writeContract`, the receipt poll, and the prediction
  fetch) are supplied through an `Env` record; the function returns the
  final React state (`UIState`) together with the ordered trace of
  externally visible actions (`FlowAction`).
* `handleGameSelect` and `staleFlowScenario` embed the app-level state for
  the cross-invocation staleness analysis: the flow body closes over the
  game captured at invocation time and never consults the current
  selection, and its completion writes the shared prediction state
  unconditionally.
-/

/-- An entry of the schedule (spec Event), as consumed by `App.jsx`.
`home_team`/`away_team` are `Option String` because the JSON field may be
absent (`none`); the JS truthiness test also rejects the empty string. -/
structure Game where
  id : Nat
  home_team : Option String
  away_team : Option String
  date : String
  time : String
  stadium : String
  city : String
deriving Repr, DecidableEq

/-- The prediction payload; only its presence matters to the flow. -/
structure Prediction where
  matchup : String
deriving Repr, DecidableEq

/-- JS truthiness of an optional boolean (`undefined` is falsy). -/
def optBoolTruthy : Option Bool → Bool
  | none => false
  | some b => b

/-- JS truthiness of an optional string (`undefined`, `null` and the empty
string are falsy). -/
def optStrTruthy : Option String → Bool
  | none => false
  | some s => !(s == "")

/-- `charsStart pat l` : `pat` is an initial run of `l` (character lists). -/
def charsStart : List Char → List Char → Bool
  | [], _ => true
  | _ :: _, [] => false
  | a :: as, b :: bs => a == b && charsStart as bs

/-- `charsIncl pat l` : `pat` occurs contiguously inside `l`. -/
def charsIncl (pat : List Char) : List Char → Bool
  | [] => charsStart pat []
  | b :: bs => charsStart pat (b :: bs) || charsIncl pat bs

/-- JS `s.includes(pat)`. -/
def strIncludes (s pat : String) : Bool := charsIncl pat.data s.data

/-- The string handed to `new Date(...)` in the sort comparator:
`` `${a.date} ${a.time}` ``. -/
def gameKey (g : Game) : String := g.date ++ " " ++ g.time

/-- The boolean ordering fed to the stable sort, derived from the source
comparator `dateTimeA - dateTimeB` under ECMAScript SortCompare: when both
dates parse the comparator is their difference, and `a` stays before `b`
iff that difference is `<= 0`; when either is NaN the comparator result is
NaN, which SortCompare treats as +0, i.e. the pair compares equal. -/
def jsSortLe (parse : String → Option Int) (a b : Game) : Bool :=
  match parse (gameKey a), parse (gameKey b) with
  | some x, some y => decide (x - y ≤ 0)
  | _, _ => true

/-- The post-processing of an accepted schedule payload
(App.jsx lines 199-205): drop entries whose `home_team` or `away_team` is
falsy, then sort with the date/time comparator. -/
def processSchedule (parse : String → Option Int) (sched : List Game) : List Game :=
  (sched.filter fun g => optStrTruthy g.home_team && optStrTruthy g.away_team).mergeSort
    (jsSortLe parse)

/-- Shape of the `/schedule` HTTP response as inspected by `fetchGames`:
`ok`/`status` from the fetch Response, `success` and `schedule` from the
JSON body (`schedule := none` models a body whose `schedule` field is not
an array). -/
structure SchedResp where
  ok : Bool
  status : Nat
  success : Bool
  schedule : Option (List Game)
deriving Repr

/-- The in-memory state written by `fetchGames`. -/
structure GamesState where
  games : List Game
  error : Option String
  loading : Bool
deriving Repr, DecidableEq

/-- Embedding of `fetchGames` (App.jsx lines 176-219).  `resp` is
`.error msg` when the fetch or JSON decode itself throws (network error),
otherwise the decoded response.  Every thrown error lands in the catch
block, which sets the error message and clears the games list. -/
def fetchGames (parse : String → Option Int) (resp : Except String SchedResp)
    (_s : GamesState) : GamesState :=
  match resp with
  | .error msg =>
      { games := [], error := some ("Failed to load games: " ++ msg), loading := false }
  | .ok r =>
      if !r.ok then
        { games := [],
          error := some ("Failed to load games: HTTP error! status: " ++ toString r.status),
          loading := false }
      else
        match r.schedule with
        | some sched =>
            if r.success then
              { games := processSchedule parse sched, error := none, loading := false }
            else
              { games := [],
                error := some "Failed to load games: Invalid schedule data format",
                loading := false }
        | none =>
            { games := [],
              error := some "Failed to load games: Invalid schedule data format",
              loading := false }

/-- `true` exactly when `fetchGames` takes a failure path: the fetch threw,
the HTTP status was non-OK, or the payload shape was invalid. -/
def schedRespFails : Except String SchedResp → Bool
  | .error _ => true
  | .ok r => !r.ok || !(r.success && r.schedule.isSome)

/-- Shape of the `/predict/{id}` HTTP response as inspected by
`handleGetPrediction`: `ok`/`status` from the Response, the rest from the
JSON body. -/
structure PredictResp where
  ok : Bool
  status : Nat
  success : Bool
  prediction : Option Prediction
  error : Option String
deriving Repr, DecidableEq

/-- The behaviour of the external collaborators during one invocation of
the flow:
* `accessFirst` : `refetchAccess().data` of the initial access check
  (`undefined` when the read fails);
* `ledgerPrice` : the `predictionPrice()` read (`currentPrice` hook,
  App.jsx line 89) — read by the component but, as proved below, never
  used by the flow;
* `txResult` : the outcome of `writeContract` for `purchasePrediction` —
  the transaction hash, or the message of the rejection it throws;
* `pollCount` : how many receipt polls return `null` before the receipt
  is observed;
* `accessSecond` : `refetchAccess().data` of the re-check after the
  receipt;
* `predictResp` : the prediction fetch — `.error msg` when fetch or JSON
  decode throws, otherwise the decoded response. -/
structure Env where
  accessFirst : Option Bool
  ledgerPrice : Option Nat
  txResult : Except String String
  pollCount : Nat
  accessSecond : Option Bool
  predictResp : Except String PredictResp
deriving Repr

/-- The React state written by the flow. -/
structure UIState where
  error : Option String
  prediction : Option Prediction
  loadingPrediction : Bool
deriving Repr, DecidableEq

/-- Externally visible actions of one invocation, in order. -/
inductive FlowAction where
  | readAccess (account : String) (gameId : Nat)
  | submitPurchase (gameId : Nat) (value : Nat)
  | pollReceipt (tx : String)
  | fetchPredict (gameId : Nat)
deriving Repr, DecidableEq

/-- `parseEther('0.07')` in wei — the value hardcoded at App.jsx line 249. -/
def parseEther007 : Nat := 70000000000000000

def msgConnect : String := "Please connect your wallet first"
def msgCancelled : String := "Transaction cancelled. Prediction not purchased."
def msgVerifyFailed : String := "Payment verification failed. Please try again."
def msgInsufficient : String :=
  "Insufficient AVAX balance. Please make sure you have enough AVAX to cover the prediction cost and gas fees."
def msgNoPrediction : String := "No prediction data available for this game"

/-- The state written by the outer catch block (App.jsx lines 314-320):
set the error message, clear the prediction, and (finally) clear the
loading flag. -/
def failState (msg : String) : UIState :=
  { error := some msg, prediction := none, loadingPrediction := false }

/-- The state outcome of the prediction-fetch tail of the flow (App.jsx
lines 292-312).  Mirrors the JS: a non-ok response throws
`data.error || Server error: status` (a falsy — absent or empty —
`data.error` selects the status message); a success payload with a truthy
`prediction` is exposed with the error cleared; otherwise a truthy
`data.error` is thrown, else a generic message.  All throws land in the
outer catch. -/
def fetchPhaseState (env : Env) : UIState :=
  match env.predictResp with
  | .error netErr => failState netErr
  | .ok resp =>
      if !resp.ok then
        match resp.error with
        | some e =>
            if e == "" then failState ("Server error: " ++ toString resp.status)
            else failState e
        | none => failState ("Server error: " ++ toString resp.status)
      else if resp.success && resp.prediction.isSome then
        { error := none, prediction := resp.prediction, loadingPrediction := false }
      else
        match resp.error with
        | some e => if e == "" then failState msgNoPrediction else failState e
        | none => failState msgNoPrediction

/-- The prediction-fetch tail, entered only once access is confirmed: it
issues exactly one `GET predict/{game.id}` and ends in `fetchPhaseState`. -/
def fetchPhase (env : Env) (game : Game) (acts : List FlowAction) : UIState × List FlowAction :=
  (fetchPhaseState env, acts ++ [FlowAction.fetchPredict game.id])

/-- The body of `handleGetPrediction` past the guards (App.jsx lines
229-321), for a connected account and a selected game.  On every terminal
path all three state fields are written (prediction and error are cleared
on entry), so the result does not depend on the incoming state. -/
def runFlow (env : Env) (game : Game) (account : String) : UIState × List FlowAction :=
  let acts0 := [FlowAction.readAccess account game.id]
  if optBoolTruthy env.accessFirst then
    fetchPhase env game acts0
  else
    match env.txResult with
    | .error txMsg =>
        let acts := acts0 ++ [FlowAction.submitPurchase game.id parseEther007]
        (if strIncludes txMsg "User rejected the transaction" then
          failState msgCancelled
        else if strIncludes txMsg "insufficient funds" then
          failState msgInsufficient
        else
          failState txMsg, acts)
    | .ok tx =>
        let acts := acts0 ++ [FlowAction.submitPurchase game.id parseEther007]
          ++ List.replicate (env.pollCount + 1) (FlowAction.pollReceipt tx)
          ++ [FlowAction.readAccess account game.id]
        if optBoolTruthy env.accessSecond then
          fetchPhase env game acts
        else
          (failState msgVerifyFailed, acts)

/-- Embedding of `handleGetPrediction` (App.jsx lines 222-321), including
the guards: no selected game is a silent no-op; a disconnected wallet sets
the connect-first error and returns — leaving the previous prediction in
place. -/
def handleGetPrediction (env : Env) (selectedGame : Option Game) (isConnected : Bool)
    (account : String) (s : UIState) : UIState × List FlowAction :=
  match selectedGame with
  | none => (s, [])
  | some game =>
      if !isConnected then
        ({ s with error := some msgConnect }, [])
      else
        runFlow env game account

/-- App-level state relevant to cross-invocation interference. -/
structure AppState where
  selectedGame : Option Game
  ui : UIState
deriving Repr, DecidableEq

/-- Embedding of `handleGameSelect` (App.jsx lines 323-326): set the
selection and clear the error (the prediction is left as is). -/
def handleGameSelect (g : Game) (st : AppState) : AppState :=
  { selectedGame := some g, ui := { st.ui with error := none } }

/-- The cross-invocation interleaving of spec section 5: the user selects
`g1` and invokes the flow; while its settlement poll is outstanding the
user selects `g2`; the first invocation then resumes and completes.  In
the source the flow body closes over the game captured at invocation time
(`selectedGame` at line 248 and 296 is the closure value) and no step
consults the current selection, so its whole outcome is `runFlow env g1`;
its completion writes the shared `error`/`prediction` state
unconditionally. -/
def staleFlowScenario (env : Env) (g1 g2 : Game) (account : String)
    (st0 : AppState) : AppState × List FlowAction :=
  let st1 := handleGameSelect g1 st0
  let st2 := handleGameSelect g2 st1
  let r := runFlow env g1 account
  ({ st2 with ui := r.1 }, r.2)

/-- `true` on the payment-submission actions of a trace. -/
def isPurchase : FlowAction → Bool
  | .submitPurchase _ _ => true
  | _ => false

/-- The chronological non-decreasing check used to state the sortedness
contract: two entries whose date/times both parse must appear in
non-decreasing order; pairs involving an unparsable entry are
unconstrained, so ANY deterministic fallback placement of unparsable
entries would satisfy this check. -/
def chronoOk (parse : String → Option Int) (a b : Game) : Bool :=
  match parse (gameKey a), parse (gameKey b) with
  | some x, some y => decide (x ≤ y)
  | _, _ => true

/-! ## Concrete fixtures -/

/-- A game that kicks off late (chronological point 10 under `cexParse`). -/
def cexGameL : Game :=
  { id := 1, home_team := some "Bills", away_team := some "Jets",
    date := "2024-09-10", time := "20:00", stadium := "S1", city := "C1" }

/-- A game that kicks off early (chronological point 0 under `cexParse`). -/
def cexGameE : Game :=
  { id := 2, home_team := some "Packers", away_team := some "Bears",
    date := "2024-09-08", time := "13:00", stadium := "S2", city := "C2" }

/-- A game whose date/time does not parse (NaN). -/
def cexGameU1 : Game :=
  { id := 90, home_team := some "Rams", away_team := some "Lions",
    date := "TBD", time := "TBD", stadium := "S3", city := "C3" }

/-- A second game whose date/time does not parse (NaN). -/
def cexGameU2 : Game :=
  { id := 91, home_team := some "Colts", away_team := some "Texans",
    date := "TBD", time := "TBD", stadium := "S4", city := "C4" }

/-- A game with a missing home team. -/
def cexGameNoHome : Game :=
  { id := 3, home_team := none, away_team := some "Eagles",
    date := "2024-09-09", time := "16:25", stadium := "S5", city := "C5" }

/-- A concrete date-parsing oracle for the fixtures: the two real
kick-off strings parse, everything else (in particular `TBD TBD`) is
unparsable. -/
def cexParse : String → Option Int := fun s =>
  if s == "2024-09-08 13:00" then some 0
  else if s == "2024-09-09 16:25" then some 5
  else if s == "2024-09-10 20:00" then some 10
  else none

/-- The initial React state: no error, no prediction. -/
def uiInit : UIState :=
  { error := none, prediction := none, loadingPrediction := false }

/-- A successful prediction response for `cexGameE`. -/
def predOkE : PredictResp :=
  { ok := true, status := 200, success := true,
    prediction := some { matchup := "Packers vs Bears" }, error := none }

/-- A collaborator behaviour where the account has no access, the ledger
advertises a price of 1 AVAX (`10^18` wei — the deploy script's initial
price), the payment transaction succeeds and settles after one poll, the
re-check grants access and the prediction fetch succeeds. -/
def cexEnvPriced : Env :=
  { accessFirst := some false, ledgerPrice := some 1000000000000000000,
    txResult := .ok "0xtx", pollCount := 0, accessSecond := some true,
    predictResp := .ok predOkE }

/-! ## Theorems -/

/-- C6: for every schedule accepted by the schedule client, an entry is in
the processed result iff its `home_team` and `away_team` are both present
and non-empty (the JS truthiness test of App.jsx line 200); entries
lacking either team are excluded, entries having both are retained. -/
theorem schedule_filters_missing_teams (parse : String → Option Int)
    (sched : List Game) (g : Game) (hg : g ∈ sched) :
    g ∈ processSchedule parse sched ↔
      (optStrTruthy g.home_team = true ∧ optStrTruthy g.away_team = true) := by
  unfold processSchedule
  rw [List.mem_mergeSort, List.mem_filter]
  simp [hg, Bool.and_eq_true]

/-- Witness for `schedule_filters_missing_teams`: in the concrete schedule
`[cexGameNoHome, cexGameE]` the entry with both teams is retained and the
entry missing its home team is excluded. -/
theorem schedule_filters_missing_teams_witness :
    (cexGameE ∈ processSchedule cexParse [cexGameNoHome, cexGameE]) ∧
    ¬ (cexGameNoHome ∈ processSchedule cexParse [cexGameNoHome, cexGameE]) := by
  constructor
  · exact (schedule_filters_missing_teams cexParse [cexGameNoHome, cexGameE]
      cexGameE (by decide)).mpr (by decide)
  · intro h
    have := (schedule_filters_missing_teams cexParse [cexGameNoHome, cexGameE]
      cexGameNoHome (by decide)).mp h
    simp [cexGameNoHome, optStrTruthy] at this

/-- C7 (amended): when every date/time string parses (the parse oracle is
total, modelling a schedule whose entries all have valid dates), the
processed schedule is sorted non-decreasing by the chronological point of
`date` and `time`. -/
theorem schedule_sorted_when_all_parsable (p : String → Int) (sched : List Game) :
    List.Pairwise (fun a b => p (gameKey a) ≤ p (gameKey b))
      (processSchedule (fun s => some (p s)) sched) := by
  have htrans : ∀ a b c : Game, jsSortLe (fun s => some (p s)) a b = true →
      jsSortLe (fun s => some (p s)) b c = true →
      jsSortLe (fun s => some (p s)) a c = true := by
    intro a b c hab hbc
    simp only [jsSortLe, decide_eq_true_eq] at *
    omega
  have htotal : ∀ a b : Game, (jsSortLe (fun s => some (p s)) a b ||
      jsSortLe (fun s => some (p s)) b a) = true := by
    intro a b
    simp only [jsSortLe, Bool.or_eq_true, decide_eq_true_eq]
    omega
  have h := List.sorted_mergeSort htrans htotal
    (sched.filter fun g => optStrTruthy g.home_team && optStrTruthy g.away_team)
  refine h.imp ?_
  intro a b hab
  simp only [jsSortLe, decide_eq_true_eq] at hab
  omega

/-- C7 counterexample: the claim "the processed output is sorted
non-decreasing by the combination of date and time interpreted as a single
chronological point, with entries whose date/time is unparsable ordered by
one deterministic fallback rule applied consistently" is false.  An
unparsable date makes the source comparator return NaN, which ECMAScript
SortCompare treats as +0 (equal to everything) — not a consistent
ordering.  On the concrete schedule `[U1, L, U2, E]` (two unparsable
entries, then a late game, then an early game) the stable merge sort
leaves the late game (point 10) BEFORE the early game (point 0): the
output violates chronological order even between two entries whose dates
both parse, which no fallback placement of the unparsable entries can
repair. -/
theorem schedule_sort_unparsable_counterexample :
    ¬ List.Pairwise (fun a b => chronoOk cexParse a b = true)
      (processSchedule cexParse [cexGameU1, cexGameL, cexGameU2, cexGameE]) := by
  have hout : processSchedule cexParse [cexGameU1, cexGameL, cexGameU2, cexGameE]
      = [cexGameU1, cexGameL, cexGameU2, cexGameE] := by
    simp [processSchedule, List.mergeSort, cexGameU1, cexGameL, cexGameU2, cexGameE,
      optStrTruthy, jsSortLe, gameKey, cexParse]
  rw [hout]
  intro h
  have h1 := (List.pairwise_cons.mp h).2
  have h2 := (List.pairwise_cons.mp h1).1 cexGameE (by simp)
  simp [chronoOk, cexGameL, cexGameE, gameKey, cexParse] at h2

/-- C10: whenever the schedule fetch fails — the fetch or JSON decode
throws, the HTTP status is non-OK, or the payload shape is invalid
(`success` not true or `schedule` not an array) — `fetchGames` leaves the
in-memory games list empty, discarding any previously fetched schedule. -/
theorem fetchGames_failure_clears_games (parse : String → Option Int)
    (resp : Except String SchedResp) (s : GamesState)
    (h : schedRespFails resp = true) :
    (fetchGames parse resp s).games = [] := by
  cases resp with
  | error msg => rfl
  | ok r =>
      unfold fetchGames
      unfold schedRespFails at h
      cases hok : r.ok <;> cases hsuc : r.success <;> cases hsched : r.schedule <;>
        simp_all

/-- Witness for `fetchGames_failure_clears_games`: a non-OK HTTP response
empties a previously populated games list. -/
theorem fetchGames_failure_clears_games_witness :
    (fetchGames cexParse
      (.ok { ok := false, status := 500, success := true, schedule := some [cexGameE] })
      { games := [cexGameE, cexGameL], error := none, loading := false }).games = [] :=
  fetchGames_failure_clears_games cexParse
    (.ok { ok := false, status := 500, success := true, schedule := some [cexGameE] })
    { games := [cexGameE, cexGameL], error := none, loading := false } (by decide)

/-- C1 (code bug): at the failing input — an account without access, the
Access Ledger advertising a price of 1 AVAX (`10^18` wei, the deploy
script's initial price) — the submitted payment action carries the
unconditionally hardcoded `parseEther('0.07')`, not the advertised price:
the `predictionPrice` read never reaches the payment. -/
theorem purchase_amount_hardcoded :
    (handleGetPrediction cexEnvPriced (some cexGameE) true "0xuser" uiInit).2
      = [FlowAction.readAccess "0xuser" 2,
         FlowAction.submitPurchase 2 parseEther007,
         FlowAction.pollReceipt "0xtx",
         FlowAction.readAccess "0xuser" 2,
         FlowAction.fetchPredict 2]
    ∧ cexEnvPriced.ledgerPrice = some 1000000000000000000
    ∧ parseEther007 ≠ 1000000000000000000 := by
  refine ⟨rfl, rfl, by decide⟩

/-- The prediction fetches appearing in a flow trace, characterized: the
fetch is always for the invocation's game, and happens exactly when the
initial access check was truthy, or it was falsy, the payment submission
returned a receipt handle, and the post-receipt re-check was truthy. -/
theorem mem_runFlow_fetchPredict (env : Env) (game : Game) (account : String) (gid : Nat) :
    FlowAction.fetchPredict gid ∈ (runFlow env game account).2 ↔
      (gid = game.id ∧
        (optBoolTruthy env.accessFirst = true ∨
          (optBoolTruthy env.accessFirst = false ∧ (∃ tx, env.txResult = .ok tx) ∧
            optBoolTruthy env.accessSecond = true))) := by
  unfold runFlow fetchPhase
  cases hacc : optBoolTruthy env.accessFirst <;>
    cases htx : env.txResult <;>
      cases hsec : optBoolTruthy env.accessSecond <;>
        simp [List.mem_append, List.mem_replicate]

/-- C2: for every invocation of `handleGetPrediction`, a prediction fetch
is issued only for the selected game and only after an access check for
that invocation returned true — either the initial fresh check, or the
re-check performed after the submitted payment's receipt was observed. -/
theorem predict_fetch_requires_access (env : Env) (game : Game) (conn : Bool)
    (acct : String) (s : UIState) (gid : Nat)
    (h : FlowAction.fetchPredict gid ∈ (handleGetPrediction env (some game) conn acct s).2) :
    gid = game.id ∧
      (optBoolTruthy env.accessFirst = true ∨
        (optBoolTruthy env.accessFirst = false ∧ (∃ tx, env.txResult = .ok tx) ∧
          optBoolTruthy env.accessSecond = true)) := by
  cases conn with
  | false => simp [handleGetPrediction] at h
  | true =>
      simp only [handleGetPrediction, Bool.not_true, Bool.false_eq_true, if_false] at h
      exact (mem_runFlow_fetchPredict env game acct gid).mp h

/-- Witness for `predict_fetch_requires_access` at the concrete behaviour
`cexEnvPriced` (initial check false, payment settles, re-check true). -/
theorem predict_fetch_requires_access_witness :
    (2 : Nat) = cexGameE.id ∧
      (optBoolTruthy cexEnvPriced.accessFirst = true ∨
        (optBoolTruthy cexEnvPriced.accessFirst = false ∧
          (∃ tx, cexEnvPriced.txResult = .ok tx) ∧
          optBoolTruthy cexEnvPriced.accessSecond = true)) :=
  predict_fetch_requires_access cexEnvPriced cexGameE true "0xuser" uiInit 2 (by decide)

/-- C3: when the initial fresh access check returns true, the invocation
submits no payment action and proceeds directly to fetching the
prediction for the selected game. -/
theorem prior_access_skips_payment (env : Env) (game : Game) (acct : String)
    (s : UIState) (h : optBoolTruthy env.accessFirst = true) :
    (∀ gid v, FlowAction.submitPurchase gid v ∉
        (handleGetPrediction env (some game) true acct s).2) ∧
    FlowAction.fetchPredict game.id ∈
      (handleGetPrediction env (some game) true acct s).2 := by
  simp [handleGetPrediction, runFlow, h, fetchPhase]

/-- A collaborator behaviour where the account already has access. -/
def cexEnvAccess : Env := { cexEnvPriced with accessFirst := some true }

/-- Witness for `prior_access_skips_payment`: with pre-existing access no
purchase of the hardcoded amount appears and the fetch is issued. -/
theorem prior_access_skips_payment_witness :
    FlowAction.submitPurchase 2 parseEther007 ∉
      (handleGetPrediction cexEnvAccess (some cexGameE) true "0xuser" uiInit).2 ∧
    FlowAction.fetchPredict cexGameE.id ∈
      (handleGetPrediction cexEnvAccess (some cexGameE) true "0xuser" uiInit).2 :=
  ⟨(prior_access_skips_payment cexEnvAccess cexGameE "0xuser" uiInit (by decide)).1
      2 parseEther007,
   (prior_access_skips_payment cexEnvAccess cexGameE "0xuser" uiInit (by decide)).2⟩

/-- C4: when the initial access check returns false and the wallet signals
a user-rejected condition on the payment, the flow terminates with the
cancellation error set, no prediction exposed, and no prediction fetch
issued. -/
theorem payment_cancelled_no_fetch (env : Env) (game : Game) (acct : String)
    (s : UIState) (txMsg : String)
    (h1 : optBoolTruthy env.accessFirst = false)
    (h2 : env.txResult = .error txMsg)
    (h3 : strIncludes txMsg "User rejected the transaction" = true) :
    (handleGetPrediction env (some game) true acct s).1.error = some msgCancelled ∧
    (handleGetPrediction env (some game) true acct s).1.prediction = none ∧
    ∀ gid, FlowAction.fetchPredict gid ∉
      (handleGetPrediction env (some game) true acct s).2 := by
  simp [handleGetPrediction, runFlow, h1, h2, h3, failState]

/-- A collaborator behaviour where the wallet rejects the payment. -/
def cexEnvCancel : Env :=
  { cexEnvPriced with txResult := .error "User rejected the transaction." }

/-- Witness for `payment_cancelled_no_fetch` at `cexEnvCancel`. -/
theorem payment_cancelled_no_fetch_witness :
    (handleGetPrediction cexEnvCancel (some cexGameE) true "0xuser" uiInit).1.error
      = some msgCancelled ∧
    (handleGetPrediction cexEnvCancel (some cexGameE) true "0xuser" uiInit).1.prediction
      = none ∧
    FlowAction.fetchPredict 2 ∉
      (handleGetPrediction cexEnvCancel (some cexGameE) true "0xuser" uiInit).2 := by
  have h := payment_cancelled_no_fetch cexEnvCancel cexGameE "0xuser" uiInit
    "User rejected the transaction." (by decide) rfl (by decide)
  exact ⟨h.1, h.2.1, h.2.2 2⟩

/-- C5: when the payment settles (a receipt handle is returned) but the
post-receipt access re-check still returns false, the flow terminates with
the verification-failure error set, no prediction exposed, no prediction
fetch issued, and exactly one payment submission in the trace. -/
theorem verification_failed_no_fetch (env : Env) (game : Game) (acct : String)
    (s : UIState) (tx : String)
    (h1 : optBoolTruthy env.accessFirst = false)
    (h2 : env.txResult = .ok tx)
    (h3 : optBoolTruthy env.accessSecond = false) :
    (handleGetPrediction env (some game) true acct s).1.error = some msgVerifyFailed ∧
    (handleGetPrediction env (some game) true acct s).1.prediction = none ∧
    (∀ gid, FlowAction.fetchPredict gid ∉
      (handleGetPrediction env (some game) true acct s).2) ∧
    List.countP isPurchase (handleGetPrediction env (some game) true acct s).2 = 1 := by
  simp [handleGetPrediction, runFlow, h1, h2, h3, failState, isPurchase,
    List.countP_append, List.countP_replicate, List.countP_cons]

/-- A collaborator behaviour where the payment settles but the re-check
still denies access. -/
def cexEnvVerifyFail : Env := { cexEnvPriced with accessSecond := some false }

/-- Witness for `verification_failed_no_fetch` at `cexEnvVerifyFail`. -/
theorem verification_failed_no_fetch_witness :
    (handleGetPrediction cexEnvVerifyFail (some cexGameE) true "0xuser" uiInit).1.error
      = some msgVerifyFailed ∧
    (handleGetPrediction cexEnvVerifyFail (some cexGameE) true "0xuser" uiInit).1.prediction
      = none ∧
    FlowAction.fetchPredict 2 ∉
      (handleGetPrediction cexEnvVerifyFail (some cexGameE) true "0xuser" uiInit).2 ∧
    List.countP isPurchase
      (handleGetPrediction cexEnvVerifyFail (some cexGameE) true "0xuser" uiInit).2 = 1 := by
  have h := verification_failed_no_fetch cexEnvVerifyFail cexGameE "0xuser" uiInit
    "0xtx" (by decide) rfl (by decide)
  exact ⟨h.1, h.2.1, h.2.2.1 2, h.2.2.2⟩

/-- Every outcome of the prediction-fetch tail has exactly one of the
error and the prediction set. -/
theorem fetchPhaseState_error_xor_prediction (env : Env) :
    (fetchPhaseState env).error.isSome ≠ (fetchPhaseState env).prediction.isSome := by
  unfold fetchPhaseState failState
  cases env.predictResp with
  | error e => simp
  | ok r =>
      rcases r with ⟨rok, rst, rsucc, rpred, rerr⟩
      cases rok <;> cases rsucc <;> cases rpred <;> rcases rerr with _ | e <;>
        (try simp) <;> (try (split <;> simp))

/-- C8 (amended): for every invocation that passes the wallet-connection
guard, the terminal state has exactly one of the error and the prediction
set: every failure path sets a single error and leaves the prediction
absent, and the success path exposes the prediction with the error
cleared.  (The disconnected-wallet guard path violates the unrestricted
claim, see `disconnected_guard_keeps_stale_prediction`.) -/
theorem flow_terminal_error_xor_prediction (env : Env) (game : Game)
    (acct : String) (s : UIState) :
    (handleGetPrediction env (some game) true acct s).1.error.isSome ≠
    (handleGetPrediction env (some game) true acct s).1.prediction.isSome := by
  have hfp := fetchPhaseState_error_xor_prediction env
  simp only [handleGetPrediction, Bool.not_true, Bool.false_eq_true, if_false]
  unfold runFlow fetchPhase
  cases hacc : optBoolTruthy env.accessFirst
  · simp only [Bool.false_eq_true, if_false]
    cases htx : env.txResult with
    | error m =>
        dsimp only
        split
        · simp [failState]
        · split <;> simp [failState]
    | ok tx =>
        cases hsec : optBoolTruthy env.accessSecond
        · simp [failState]
        · simpa using hfp
  · simpa [hacc] using hfp

/-- C8 counterexample: the claim as stated — on no terminal state of the
flow are both an error and a prediction set — is false: invoking the flow
while the wallet is disconnected, after an earlier invocation has exposed
a prediction, sets the connect-first error (App.jsx line 225) and returns
before the `setPrediction(null)` of line 230, leaving the stale prediction
in place, so both are set simultaneously. -/
theorem disconnected_guard_keeps_stale_prediction :
    ((handleGetPrediction cexEnvPriced (some cexGameE) false "0xuser"
        { error := none, prediction := some { matchup := "Bills vs Jets" },
          loadingPrediction := false }).1.error.isSome = true) ∧
    ((handleGetPrediction cexEnvPriced (some cexGameE) false "0xuser"
        { error := none, prediction := some { matchup := "Bills vs Jets" },
          loadingPrediction := false }).1.prediction.isSome = true) :=
  ⟨rfl, rfl⟩

/-- C9 (code bug): the stale-poll interleaving — the flow is invoked for
`cexGameE` (id 2), the user then selects `cexGameL` (id 1) while the
settlement poll is outstanding, and the first flow completes — ends with
the selection on game 1 but the prediction fetched for game 2 written into
the shared state: nothing in the source tags the in-flight flow or
discards its result when the selection has changed. -/
theorem stale_flow_updates_new_selection :
    (staleFlowScenario cexEnvPriced cexGameE cexGameL "0xuser"
        { selectedGame := none, ui := uiInit }).1.selectedGame = some cexGameL ∧
    (staleFlowScenario cexEnvPriced cexGameE cexGameL "0xuser"
        { selectedGame := none, ui := uiInit }).1.ui.prediction
      = some { matchup := "Packers vs Bears" } ∧
    FlowAction.fetchPredict cexGameE.id ∈
      (staleFlowScenario cexEnvPriced cexGameE cexGameL "0xuser"
        { selectedGame := none, ui := uiInit }).2 := by
  refine ⟨rfl, rfl, ?_⟩
  simp [staleFlowScenario, runFlow, fetchPhase, cexEnvPriced, optBoolTruthy]
